import Mathlib

/-!
Shallow embedding of `homework.py`, a fitness-tracker module: three workout
variants (Running, SportsWalking, Swimming) over a base class Training,
an InfoMessage formatter, a tag dispatcher `read_package` and a driver loop.

Numbers are modelled as rationals (Python floats idealised as exact
arithmetic).  Python's fallible operations (division by zero, floor
division by zero, NotImplementedError, dict KeyError, argument-count
mismatch on positional spreading) are modelled with `Except PyErr`;
an uncaught exception propagates, aborting the computation, exactly as
exception propagation does in the script.
-/

namespace Homework

/-- The runtime failure conditions the script can raise. -/
inductive PyErr where
  | divByZero
  | notImplemented
  | keyNotFound
  | arityMismatch
deriving DecidableEq, Repr

/-- Python `a / b` on numbers: raises ZeroDivisionError when `b = 0`. -/
def divE (a b : ℚ) : Except PyErr ℚ :=
  if b = 0 then .error .divByZero else .ok (a / b)

/-- Python `a // b` on numbers: floor of the true quotient; raises
ZeroDivisionError when `b = 0`. -/
def floorDivE (a b : ℚ) : Except PyErr ℚ :=
  if b = 0 then .error .divByZero else .ok ((⌊a / b⌋ : ℤ) : ℚ)

/-- The class hierarchy as a sum: the base class `Training` is itself
instantiable (constructor `training`), plus the three concrete variants
with their extra fields, mirroring each `__init__`. -/
inductive Training where
  | training (action duration weight : ℚ)
  | running (action duration weight : ℚ)
  | sportsWalking (action duration weight height : ℚ)
  | swimming (action duration weight length_pool count_pool : ℚ)
deriving DecidableEq, Repr

namespace Training

def action : Training → ℚ
  | .training a _ _ => a
  | .running a _ _ => a
  | .sportsWalking a _ _ _ => a
  | .swimming a _ _ _ _ => a

def duration : Training → ℚ
  | .training _ d _ => d
  | .running _ d _ => d
  | .sportsWalking _ d _ _ => d
  | .swimming _ d _ _ _ => d

def weight : Training → ℚ
  | .training _ _ w => w
  | .running _ _ w => w
  | .sportsWalking _ _ w _ => w
  | .swimming _ _ w _ _ => w

end Training

/-- Class constant `M_IN_KM = 1000`. -/
def M_IN_KM : ℚ := 1000

/-- Class constant `MIN_IN_H = 60`. -/
def MIN_IN_H : ℚ := 60

/-- Class attribute `LEN_STEP`: `0.65` on the base class, overridden to
`1.38` by `Swimming`. -/
def LEN_STEP : Training → ℚ
  | .swimming _ _ _ _ _ => 1.38
  | _ => 0.65

/-- Running class constant `coeff_calorie_1 = 18`. -/
def coeff_calorie_1 : ℚ := 18

/-- Running class constant `coeff_calorie_2 = 20`. -/
def coeff_calorie_2 : ℚ := 20

/-- SportsWalking class constant `coeff_walking_1 = 0.035`. -/
def coeff_walking_1 : ℚ := 0.035

/-- SportsWalking class constant `coeff_walking_2 = 2` (the exponent). -/
def coeff_walking_2 : ℕ := 2

/-- SportsWalking class constant `coeff_walking_3 = 0.029`. -/
def coeff_walking_3 : ℚ := 0.029

/-- Swimming class constant `coeff_swim_1 = 1.1`. -/
def coeff_swim_1 : ℚ := 1.1

/-- Swimming class constant `coeff_swim_2 = 2`. -/
def coeff_swim_2 : ℚ := 2

/-- `get_distance`: `action * LEN_STEP / M_IN_KM`.  `Swimming.get_distance`
overrides the base method with a textually identical body (its
`self.LEN_STEP` being `1.38`), so one definition over the dispatched
`LEN_STEP` covers both. -/
def get_distance (t : Training) : Except PyErr ℚ :=
  divE (t.action * LEN_STEP t) M_IN_KM

/-- `get_mean_speed`: base method is `get_distance() / duration`;
`Swimming` overrides it entirely with
`length_pool * count_pool / M_IN_KM / duration`. -/
def get_mean_speed (t : Training) : Except PyErr ℚ :=
  match t with
  | .swimming _ d _ lp cp =>
    match divE (lp * cp) M_IN_KM with
    | .error e => .error e
    | .ok x => divE x d
  | _ =>
    match get_distance t with
    | .error e => .error e
    | .ok dist => divE dist t.duration

/-- `get_spent_calories`: raises NotImplementedError on the base class;
each concrete variant overrides it with its own formula. -/
def get_spent_calories (t : Training) : Except PyErr ℚ :=
  match t with
  | .training _ _ _ => .error .notImplemented
  | .running _ d w =>
    match get_mean_speed t with
    | .error e => .error e
    | .ok ms =>
      match divE ((coeff_calorie_1 * ms - coeff_calorie_2) * w) M_IN_KM with
      | .error e => .error e
      | .ok x => .ok (x * (d * MIN_IN_H))
  | .sportsWalking _ d w h =>
    match get_mean_speed t with
    | .error e => .error e
    | .ok ms =>
      match floorDivE (ms ^ coeff_walking_2) h with
      | .error e => .error e
      | .ok fd =>
        .ok ((coeff_walking_1 * w + fd * coeff_walking_3 * w) * (d * MIN_IN_H))
  | .swimming _ _ w _ _ =>
    match get_mean_speed t with
    | .error e => .error e
    | .ok ms => .ok ((ms + coeff_swim_1) * coeff_swim_2 * w)

/-- `self.__class__.__name__` of each record. -/
def className : Training → String
  | .training _ _ _ => "Training"
  | .running _ _ _ => "Running"
  | .sportsWalking _ _ _ _ => "SportsWalking"
  | .swimming _ _ _ _ _ => "Swimming"

/-- The `InfoMessage` dataclass fields. -/
structure InfoMessage where
  training_type : String
  duration : ℚ
  distance : ℚ
  speed : ℚ
  calories : ℚ
deriving DecidableEq, Repr

/-- `show_training_info`: computes the three metrics and packages them with
the class name into an `InfoMessage`; any raised exception propagates. -/
def show_training_info (t : Training) : Except PyErr InfoMessage :=
  match get_distance t with
  | .error e => .error e
  | .ok distance =>
    match get_mean_speed t with
    | .error e => .error e
    | .ok mean_speed =>
      match get_spent_calories t with
      | .error e => .error e
      | .ok spent_calories =>
        .ok ⟨className t, t.duration, distance, mean_speed, spent_calories⟩

/-- One decimal digit as a character (used by fixed-point rendering). -/
def digitChar (n : ℕ) : Char := Char.ofNat (48 + n % 10)

/-- Exactly three fractional digits of a thousandths count `m`. -/
def frac3 (m : ℕ) : String :=
  String.mk [digitChar (m / 100), digitChar (m / 10), digitChar m]

/-- Round to the nearest integer, ties to even — the rounding Python's
fixed-point `format` applies. -/
def roundHalfEven (x : ℚ) : ℤ :=
  if x - ⌊x⌋ < 1 / 2 then ⌊x⌋
  else if 1 / 2 < x - ⌊x⌋ then ⌊x⌋ + 1
  else if ⌊x⌋ % 2 = 0 then ⌊x⌋ else ⌊x⌋ + 1

/-- Python `format(q, "0.3f")`: fixed-point with exactly three decimal
digits. -/
def fmtFixed3 (q : ℚ) : String :=
  (if q < 0 then "-" else "")
    ++ toString ((roundHalfEven (|q| * 1000)).toNat / 1000)
    ++ "." ++ frac3 ((roundHalfEven (|q| * 1000)).toNat % 1000)

/-- Python `format(q, " 0.3f")`: as `fmtFixed3` but the space sign option
prefixes a blank to non-negative values. -/
def fmtSpace3 (q : ℚ) : String :=
  if q < 0 then fmtFixed3 q else " " ++ fmtFixed3 q

/-- `InfoMessage.get_message`: the class's `message` template
`'Тип тренировки: ...; Длительность:... ч.; Дистанция:... км; Ср. скорость:... км/ч; Потрачено ккал: ... .'`
filled with the record's fields; duration, distance and speed use the
space-signed format spec, calories the plain one. -/
def get_message (i : InfoMessage) : String :=
  "Тип тренировки: " ++ i.training_type ++ "; "
    ++ "Длительность:" ++ fmtSpace3 i.duration ++ " ч.; "
    ++ "Дистанция:" ++ fmtSpace3 i.distance ++ " км; "
    ++ "Ср. скорость:" ++ fmtSpace3 i.speed ++ " км/ч; "
    ++ "Потрачено ккал: " ++ fmtFixed3 i.calories ++ "."

/-- `Swimming(*data)`: positional spread of a 5-element sequence; any other
length raises a TypeError (argument-count mismatch). -/
def mkSwimming : List ℚ → Except PyErr Training
  | [a, d, w, lp, cp] => .ok (.swimming a d w lp cp)
  | _ => .error .arityMismatch

/-- `Running(*data)`: positional spread of a 3-element sequence. -/
def mkRunning : List ℚ → Except PyErr Training
  | [a, d, w] => .ok (.running a d w)
  | _ => .error .arityMismatch

/-- `SportsWalking(*data)`: positional spread of a 4-element sequence. -/
def mkSportsWalking : List ℚ → Except PyErr Training
  | [a, d, w, h] => .ok (.sportsWalking a d w h)
  | _ => .error .arityMismatch

/-- The module-level dict `TRAINING_TYPE`, as an association list in its
literal order. -/
def TRAINING_TYPE : List (String × (List ℚ → Except PyErr Training)) :=
  [("SWM", mkSwimming), ("RUN", mkRunning), ("WLK", mkSportsWalking)]

/-- `read_package(workout_type, data)`: dict lookup (KeyError when the tag
is absent) then positional spread into the looked-up constructor. -/
def read_package (workout_type : String) (data : List ℚ) :
    Except PyErr Training :=
  match TRAINING_TYPE.lookup workout_type with
  | none => .error .keyNotFound
  | some ctor => ctor data

/-- `main(training)` composed with the preceding `read_package` call: one
driver iteration over a `(tag, data)` pair, yielding the printed line. -/
def mainStep (tag : String) (data : List ℚ) : Except PyErr String :=
  match read_package tag data with
  | .error e => .error e
  | .ok t =>
    match show_training_info t with
    | .error e => .error e
    | .ok info => .ok (get_message info)

/-- The `__main__` driver loop over a list of packages: a membership
pre-check raises KeyError on an unrecognized tag, and any raised exception
is uncaught, so it aborts the whole loop; the printed lines of the
successfully processed prefix are collected. -/
def runDriver : List (String × List ℚ) → Except PyErr (List String)
  | [] => .ok []
  | (tag, data) :: rest =>
    if (TRAINING_TYPE.lookup tag).isSome then
      match mainStep tag data with
      | .error e => .error e
      | .ok line =>
        match runDriver rest with
        | .error e => .error e
        | .ok out => .ok (line :: out)
    else .error .keyNotFound

/-- The literal `packages` list of the script. -/
def packages : List (String × List ℚ) :=
  [("SWM", [720, 1, 80, 25, 40]),
   ("RUN", [15000, 1, 75]),
   ("WLK", [9000, 1, 75, 180])]

lemma divE_ok (a : ℚ) {b : ℚ} (hb : b ≠ 0) : divE a b = .ok (a / b) := by
  unfold divE; exact if_neg hb

lemma floorDivE_ok (a : ℚ) {b : ℚ} (hb : b ≠ 0) :
    floorDivE a b = .ok ((⌊a / b⌋ : ℤ) : ℚ) := by
  unfold floorDivE; exact if_neg hb

lemma divE_ne_notImpl (a b : ℚ) : divE a b ≠ .error .notImplemented := by
  unfold divE; split <;> simp

lemma floorDivE_ne_notImpl (a b : ℚ) :
    floorDivE a b ≠ .error .notImplemented := by
  unfold floorDivE; split <;> simp

lemma get_mean_speed_ne_notImpl (t : Training) :
    get_mean_speed t ≠ .error .notImplemented := by
  cases t <;> simp only [get_mean_speed, get_distance] <;> split
  all_goals
    first
      | exact divE_ne_notImpl _ _
      | (rename_i heq; exact heq ▸ divE_ne_notImpl _ _)

/-- Formatter as claim C2 words it, stated from the spec sentence for
comparison with `get_message` (which is translated from the source): the
English template with plain 3-decimal fields. -/
def claimGetMessage (i : InfoMessage) : String :=
  "Workout type: " ++ i.training_type ++ "; Duration: " ++ fmtFixed3 i.duration
    ++ " h.; Distance: " ++ fmtFixed3 i.distance ++ " km; Avg speed: "
    ++ fmtFixed3 i.speed ++ " km/h; Calories burned: " ++ fmtFixed3 i.calories ++ "."

/-- The template `get_message` actually fills, as the amended claim words
it: the same field order but Russian labels, the space sign option on the
duration, distance and speed fields, and three decimal digits throughout. -/
def amendedMessageTemplate (i : InfoMessage) : String :=
  String.join ["Тип тренировки: ", i.training_type, "; ",
    "Длительность:", fmtSpace3 i.duration, " ч.; ",
    "Дистанция:", fmtSpace3 i.distance, " км; ",
    "Ср. скорость:", fmtSpace3 i.speed, " км/ч; ",
    "Потрачено ккал: ", fmtFixed3 i.calories, "."]

/-- Claim C2 counterexample: on the Summary of the script's swimming
package the produced line is the Russian-labelled one, not the English
template the claim states (they already differ at the first character). -/
theorem formatter_counterexample :
    get_message ⟨"Swimming", 1, 0.9936, 1, 336⟩ ≠
      claimGetMessage ⟨"Swimming", 1, 0.9936, 1, 336⟩ := by
  intro h
  have h2 : (some 'Т' : Option Char) = some 'W' := by
    rw [show (some 'Т' : Option Char) =
          (get_message ⟨"Swimming", 1, 0.9936, 1, 336⟩).data.head? from rfl,
        show (some 'W' : Option Char) =
          (claimGetMessage ⟨"Swimming", 1, 0.9936, 1, 336⟩).data.head? from rfl, h]
  exact absurd h2 (by decide)

/-- Claim C2 (amended): for every Summary the formatter produces the
single-line Russian-labelled template — workout type, duration, distance,
average speed, calories, in that order, numeric fields space-signed except
calories — and every numeric field carries exactly three decimal digits. -/
theorem formatter_amended :
    (∀ i, get_message i = amendedMessageTemplate i)
    ∧ (∀ q, ∃ intPart fracPart,
        fmtFixed3 q = intPart ++ "." ++ fracPart ∧ fracPart.length = 3) :=
  ⟨fun _ => rfl,
   fun q =>
    ⟨(if q < 0 then "-" else "")
        ++ toString ((roundHalfEven (|q| * 1000)).toNat / 1000),
      frac3 ((roundHalfEven (|q| * 1000)).toNat % 1000), rfl, rfl⟩⟩

/-- Claim C3: for every Walking record with duration > 0 and height > 0,
`get_spent_calories` equals
`(0.035 * weight + floor(mean_speed^2 / height) * 0.029 * weight) * (duration * 60)`,
with an integer-floor division of the squared mean speed by the height; and
the spec's concrete instance `action=9000, duration=1, weight=75, height=180`
(whose mean speed is 5.85) matches that formula. -/
theorem walking_calories :
    (∀ a d w h ms, 0 < d → 0 < h →
        get_mean_speed (.sportsWalking a d w h) = .ok ms →
        get_spent_calories (.sportsWalking a d w h) =
          .ok ((0.035 * w + ((⌊ms ^ 2 / h⌋ : ℤ) : ℚ) * 0.029 * w) * (d * 60)))
    ∧ get_spent_calories (.sportsWalking 9000 1 75 180) =
        .ok ((0.035 * 75 + ((⌊(5.85 : ℚ) ^ 2 / 180⌋ : ℤ) : ℚ) * 0.029 * 75) * (1 * 60)) := by
  constructor
  · intro a d w h ms hd hh hms
    simp only [get_spent_calories, hms, floorDivE, coeff_walking_1, coeff_walking_2,
      coeff_walking_3, MIN_IN_H, if_neg hh.ne']
  · norm_num [get_spent_calories, get_mean_speed, get_distance, divE, floorDivE, M_IN_KM,
      MIN_IN_H, LEN_STEP, coeff_walking_1, coeff_walking_2, coeff_walking_3,
      Training.action, Training.duration, Training.weight]

/-- Witness for C3 at the spec's concrete input. -/
theorem walking_calories_witness :
    get_spent_calories (.sportsWalking 9000 1 75 180) =
      .ok ((0.035 * 75 + ((⌊(5.85 : ℚ) ^ 2 / 180⌋ : ℤ) : ℚ) * 0.029 * 75) * (1 * 60)) :=
  walking_calories.1 9000 1 75 180 5.85 (by norm_num) (by norm_num)
    (by norm_num [get_mean_speed, get_distance, divE, M_IN_KM, LEN_STEP,
      Training.action, Training.duration])

/-- Claim C4: for every Running record with duration > 0,
`get_spent_calories` equals
`(18 * mean_speed - 20) * weight / 1000 * (duration * 60)`; in particular,
for `action=15000, duration=1, weight=75` the mean speed is `9.75` and the
calories are `(18 * 9.75 - 20) * 75 / 1000 * (1 * 60)` exactly. -/
theorem running_calories :
    (∀ a d w ms, 0 < d →
        get_mean_speed (.running a d w) = .ok ms →
        get_spent_calories (.running a d w) =
          .ok ((18 * ms - 20) * w / 1000 * (d * 60)))
    ∧ get_mean_speed (.running 15000 1 75) = .ok 9.75
    ∧ get_spent_calories (.running 15000 1 75) =
        .ok ((18 * 9.75 - 20) * 75 / 1000 * (1 * 60)) := by
  refine ⟨?_, ?_, ?_⟩
  · intro a d w ms hd hms
    simp only [get_spent_calories, hms, divE, coeff_calorie_1, coeff_calorie_2, M_IN_KM,
      MIN_IN_H, if_neg (show ¬((1000 : ℚ) = 0) by norm_num)]
  · norm_num [get_mean_speed, get_distance, divE, M_IN_KM, LEN_STEP,
      Training.action, Training.duration]
  · norm_num [get_spent_calories, get_mean_speed, get_distance, divE, M_IN_KM, MIN_IN_H,
      LEN_STEP, coeff_calorie_1, coeff_calorie_2, Training.action, Training.duration,
      Training.weight]

/-- Witness for C4 at the spec's concrete input. -/
theorem running_calories_witness :
    get_spent_calories (.running 15000 1 75) =
      .ok ((18 * 9.75 - 20) * 75 / 1000 * (1 * 60)) :=
  running_calories.1 15000 1 75 9.75 (by norm_num) running_calories.2.1

/-- Claim C5: for every Swimming record with duration > 0, the mean speed is
`length_pool * count_pool / 1000 / duration` (Swimming's override of the
default distance/duration) and the calories are `(mean_speed + 1.1) * 2 *
weight`; in particular, for `action=720, duration=1, weight=80,
length_pool=25, count_pool=40` the mean speed is `1` and the calories `336`. -/
theorem swimming_metrics :
    (∀ a d w lp cp, 0 < d →
        get_mean_speed (.swimming a d w lp cp) = .ok (lp * cp / 1000 / d)
          ∧ get_spent_calories (.swimming a d w lp cp) =
              .ok ((lp * cp / 1000 / d + 1.1) * 2 * w))
    ∧ get_mean_speed (.swimming 720 1 80 25 40) = .ok 1
    ∧ get_spent_calories (.swimming 720 1 80 25 40) = .ok 336 := by
  have hms : ∀ (a d w lp cp : ℚ), d ≠ 0 →
      get_mean_speed (.swimming a d w lp cp) = .ok (lp * cp / 1000 / d) := by
    intro a d w lp cp hd
    simp only [get_mean_speed, divE, M_IN_KM,
      if_neg (show ¬((1000 : ℚ) = 0) by norm_num), if_neg hd]
  refine ⟨fun a d w lp cp hd => ⟨hms a d w lp cp hd.ne', ?_⟩, ?_, ?_⟩
  · simp only [get_spent_calories, hms a d w lp cp hd.ne', coeff_swim_1, coeff_swim_2]
  · norm_num [get_mean_speed, divE, M_IN_KM]
  · norm_num [get_spent_calories, get_mean_speed, divE, M_IN_KM, coeff_swim_1, coeff_swim_2,
      Training.weight]

/-- Witness for C5 at the spec's concrete input. -/
theorem swimming_metrics_witness :
    get_mean_speed (.swimming 720 1 80 25 40) = .ok (25 * 40 / 1000 / 1)
      ∧ get_spent_calories (.swimming 720 1 80 25 40) =
          .ok ((25 * 40 / 1000 / 1 + 1.1) * 2 * 80) :=
  swimming_metrics.1 720 1 80 25 40 (by norm_num)

/-- Claim C6: for every record, `get_distance` equals
`action * step_length / 1000` where the step length is `1.38` for Swimming
and `0.65` for Running and Walking; a Swimming record with `action = 720`
has distance `720 * 1.38 / 1000 = 0.9936`. -/
theorem distance_formula :
    (∀ t, get_distance t = .ok (t.action * LEN_STEP t / 1000))
    ∧ (∀ a d w lp cp, LEN_STEP (.swimming a d w lp cp) = 1.38)
    ∧ (∀ a d w, LEN_STEP (.running a d w) = 0.65)
    ∧ (∀ a d w h, LEN_STEP (.sportsWalking a d w h) = 0.65)
    ∧ get_distance (.swimming 720 1 80 25 40) = .ok 0.9936 := by
  refine ⟨?_, fun _ _ _ _ _ => rfl, fun _ _ _ => rfl, fun _ _ _ _ => rfl, ?_⟩
  · intro t
    simp only [get_distance, divE, M_IN_KM, if_neg (show ¬((1000 : ℚ) = 0) by norm_num)]
  · norm_num [get_distance, divE, M_IN_KM, LEN_STEP, Training.action]

/-- Claim C9: `get_spent_calories` on the base class fails with the
"not implemented" condition, and none of the three concrete variants can
produce that condition, each providing its own implementation. -/
theorem concrete_variants_implement_calories :
    (∀ a d w, get_spent_calories (.training a d w) = .error .notImplemented)
    ∧ (∀ a d w, get_spent_calories (.running a d w) ≠ .error .notImplemented)
    ∧ (∀ a d w h, get_spent_calories (.sportsWalking a d w h) ≠ .error .notImplemented)
    ∧ (∀ a d w lp cp, get_spent_calories (.swimming a d w lp cp) ≠ .error .notImplemented) := by
  refine ⟨fun _ _ _ => rfl, ?_, ?_, ?_⟩
  · intro a d w
    simp only [get_spent_calories]
    split
    · rename_i heq; exact heq ▸ get_mean_speed_ne_notImpl _
    · split
      · rename_i heq; exact heq ▸ divE_ne_notImpl _ _
      · simp
  · intro a d w h
    simp only [get_spent_calories]
    split
    · rename_i heq; exact heq ▸ get_mean_speed_ne_notImpl _
    · split
      · rename_i heq; exact heq ▸ floorDivE_ne_notImpl _ _
      · simp
  · intro a d w lp cp
    simp only [get_spent_calories]
    split
    · rename_i heq; exact heq ▸ get_mean_speed_ne_notImpl _
    · simp

lemma lookup_none {tag : String} (h1 : tag ≠ "SWM") (h2 : tag ≠ "RUN")
    (h3 : tag ≠ "WLK") : TRAINING_TYPE.lookup tag = none := by
  simp [TRAINING_TYPE, List.lookup, beq_eq_false_iff_ne.mpr h1,
    beq_eq_false_iff_ne.mpr h2, beq_eq_false_iff_ne.mpr h3]

/-- Claim C7: the dispatcher spreads a 3-element sequence into Running under
"RUN", a 4-element one into Walking under "WLK", a 5-element one into
Swimming under "SWM", and fails with the "key not found" condition on every
tag outside the recognized set. -/
theorem dispatcher_spec :
    (∀ a d w, read_package "RUN" [a, d, w] = .ok (.running a d w))
    ∧ (∀ a d w h, read_package "WLK" [a, d, w, h] = .ok (.sportsWalking a d w h))
    ∧ (∀ a d w lp cp, read_package "SWM" [a, d, w, lp, cp] = .ok (.swimming a d w lp cp))
    ∧ (∀ tag data, tag ∉ (["SWM", "RUN", "WLK"] : List String) →
        read_package tag data = .error .keyNotFound) := by
  refine ⟨fun _ _ _ => rfl, fun _ _ _ _ => rfl, fun _ _ _ _ _ => rfl, ?_⟩
  intro tag data htag
  simp only [List.mem_cons, List.not_mem_nil, or_false, not_or] at htag
  obtain ⟨h1, h2, h3⟩ := htag
  simp [read_package, lookup_none h1 h2 h3]

/-- Witness for C7: the unrecognized tag "XYZ" hits the key-not-found path. -/
theorem dispatcher_spec_witness :
    read_package "XYZ" [] = .error .keyNotFound :=
  dispatcher_spec.2.2.2 "XYZ" [] (by decide)

/-- Claim C1 counterexample: on the batch whose first pair carries the
unrecognized tag "XYZ", the driver raises KeyError at that pair and the
well-formed "RUN" pair after it is never processed — the loop yields no
output lines at all, rather than a diagnostic plus the next pair's line. -/
theorem driver_abort_counterexample :
    runDriver [("XYZ", []), ("RUN", [15000, 1, 75])] = .error .keyNotFound := rfl

/-- Claim C1 (amended): a pair whose tag is not one of SWM, RUN, WLK makes
the driver raise an uncaught KeyError, aborting the whole iteration; the
remaining pairs are not processed and no line is produced. -/
theorem driver_abort (tag : String) (data : List ℚ)
    (rest : List (String × List ℚ)) (h1 : tag ≠ "SWM") (h2 : tag ≠ "RUN")
    (h3 : tag ≠ "WLK") :
    runDriver ((tag, data) :: rest) = .error .keyNotFound := by
  simp [runDriver, lookup_none h1 h2 h3]

/-- Witness for C1 at a concrete unrecognized tag. -/
theorem driver_abort_witness :
    runDriver [("ABC", [1])] = .error .keyNotFound :=
  driver_abort "ABC" [1] [] (by decide) (by decide) (by decide)

lemma get_distance_ok (t : Training) :
    get_distance t = .ok (t.action * LEN_STEP t / 1000) := by
  simp only [get_distance, divE, M_IN_KM, if_neg (show ¬((1000 : ℚ) = 0) by norm_num)]

lemma get_mean_speed_running (a d w : ℚ) (hd : d ≠ 0) :
    get_mean_speed (.running a d w) = .ok (a * 0.65 / 1000 / d) := by
  simp only [get_mean_speed, get_distance, divE, M_IN_KM, LEN_STEP, Training.action,
    Training.duration, if_neg (show ¬((1000 : ℚ) = 0) by norm_num), if_neg hd]

lemma get_mean_speed_walking (a d w h : ℚ) (hd : d ≠ 0) :
    get_mean_speed (.sportsWalking a d w h) = .ok (a * 0.65 / 1000 / d) := by
  simp only [get_mean_speed, get_distance, divE, M_IN_KM, LEN_STEP, Training.action,
    Training.duration, if_neg (show ¬((1000 : ℚ) = 0) by norm_num), if_neg hd]

lemma get_mean_speed_swimming (a d w lp cp : ℚ) (hd : d ≠ 0) :
    get_mean_speed (.swimming a d w lp cp) = .ok (lp * cp / 1000 / d) := by
  simp only [get_mean_speed, divE, M_IN_KM,
    if_neg (show ¬((1000 : ℚ) = 0) by norm_num), if_neg hd]

lemma get_spent_calories_running_ok (a d w : ℚ) (hd : d ≠ 0) :
    get_spent_calories (.running a d w) = .ok
      ((coeff_calorie_1 * (a * 0.65 / 1000 / d) - coeff_calorie_2) * w / 1000
        * (d * MIN_IN_H)) := by
  simp only [get_spent_calories, get_mean_speed_running a d w hd, divE, M_IN_KM,
    if_neg (show ¬((1000 : ℚ) = 0) by norm_num)]

lemma get_spent_calories_walking_ok (a d w h : ℚ) (hd : d ≠ 0) (hh : h ≠ 0) :
    get_spent_calories (.sportsWalking a d w h) = .ok
      ((coeff_walking_1 * w
          + ((⌊(a * 0.65 / 1000 / d) ^ coeff_walking_2 / h⌋ : ℤ) : ℚ)
            * coeff_walking_3 * w) * (d * MIN_IN_H)) := by
  simp only [get_spent_calories, get_mean_speed_walking a d w h hd, floorDivE, if_neg hh]

lemma get_spent_calories_swimming_ok (a d w lp cp : ℚ) (hd : d ≠ 0) :
    get_spent_calories (.swimming a d w lp cp) = .ok
      ((lp * cp / 1000 / d + coeff_swim_1) * coeff_swim_2 * w) := by
  simp only [get_spent_calories, get_mean_speed_swimming a d w lp cp hd]

/-- Claim C8 counterexample: the claim's precondition `duration > 0` is not
enough for totality across all three variants — a Walking record with
duration 1 but height 0 still fails the calorie computation with the
division-by-zero condition (Python floor division by zero). -/
theorem walking_height_zero_counterexample :
    get_spent_calories (.sportsWalking 9000 1 75 0) = .error .divByZero := rfl

/-- Claim C8 (amended): with duration 0, `get_mean_speed` — and every
calorie computation that calls it — fails with the division-by-zero
condition on each variant; under duration > 0 (and height ≠ 0 for Walking,
whose formula floor-divides by the height) the mean speed, distance and
calories of all three concrete variants are total. -/
theorem zero_duration_behaviour :
    (∀ a w, get_mean_speed (.training a 0 w) = .error .divByZero)
    ∧ (∀ a w, get_mean_speed (.running a 0 w) = .error .divByZero)
    ∧ (∀ a w h, get_mean_speed (.sportsWalking a 0 w h) = .error .divByZero)
    ∧ (∀ a w lp cp, get_mean_speed (.swimming a 0 w lp cp) = .error .divByZero)
    ∧ (∀ a w, get_spent_calories (.running a 0 w) = .error .divByZero)
    ∧ (∀ a w h, get_spent_calories (.sportsWalking a 0 w h) = .error .divByZero)
    ∧ (∀ a w lp cp, get_spent_calories (.swimming a 0 w lp cp) = .error .divByZero)
    ∧ (∀ a d w, 0 < d →
        (∃ v, get_mean_speed (.running a d w) = .ok v)
          ∧ (∃ v, get_distance (.running a d w) = .ok v)
          ∧ (∃ v, get_spent_calories (.running a d w) = .ok v))
    ∧ (∀ a d w h, 0 < d → h ≠ 0 →
        (∃ v, get_mean_speed (.sportsWalking a d w h) = .ok v)
          ∧ (∃ v, get_distance (.sportsWalking a d w h) = .ok v)
          ∧ (∃ v, get_spent_calories (.sportsWalking a d w h) = .ok v))
    ∧ (∀ a d w lp cp, 0 < d →
        (∃ v, get_mean_speed (.swimming a d w lp cp) = .ok v)
          ∧ (∃ v, get_distance (.swimming a d w lp cp) = .ok v)
          ∧ (∃ v, get_spent_calories (.swimming a d w lp cp) = .ok v)) := by
  refine ⟨fun _ _ => rfl, fun _ _ => rfl, fun _ _ _ => rfl, fun _ _ _ _ => rfl,
    fun _ _ => rfl, fun _ _ _ => rfl, fun _ _ _ _ => rfl, ?_, ?_, ?_⟩
  · intro a d w hd
    exact ⟨⟨_, get_mean_speed_running a d w hd.ne'⟩, ⟨_, get_distance_ok _⟩,
      ⟨_, get_spent_calories_running_ok a d w hd.ne'⟩⟩
  · intro a d w h hd hh
    exact ⟨⟨_, get_mean_speed_walking a d w h hd.ne'⟩, ⟨_, get_distance_ok _⟩,
      ⟨_, get_spent_calories_walking_ok a d w h hd.ne' hh⟩⟩
  · intro a d w lp cp hd
    exact ⟨⟨_, get_mean_speed_swimming a d w lp cp hd.ne'⟩, ⟨_, get_distance_ok _⟩,
      ⟨_, get_spent_calories_swimming_ok a d w lp cp hd.ne'⟩⟩

/-- Witness for C8 at the script's running package. -/
theorem zero_duration_behaviour_witness :
    (∃ v, get_spent_calories (.running 15000 1 75) = .ok v) :=
  (zero_duration_behaviour.2.2.2.2.2.2.2.1 15000 1 75 (by norm_num)).2.2

lemma show_training_info_type {t : Training} {msg : InfoMessage}
    (h : show_training_info t = .ok msg) : msg.training_type = className t := by
  unfold show_training_info at h
  split at h
  · simp at h
  · split at h
    · simp at h
    · split at h
      · simp at h
      · simp only [Except.ok.injEq] at h
        subst h
        rfl

lemma mkSwimming_ok {data : List ℚ} {t : Training} (h : mkSwimming data = .ok t) :
    className t = "Swimming" := by
  unfold mkSwimming at h
  split at h
  · simp only [Except.ok.injEq] at h; subst h; rfl
  · simp at h

lemma mkRunning_ok {data : List ℚ} {t : Training} (h : mkRunning data = .ok t) :
    className t = "Running" := by
  unfold mkRunning at h
  split at h
  · simp only [Except.ok.injEq] at h; subst h; rfl
  · simp at h

lemma mkSportsWalking_ok {data : List ℚ} {t : Training}
    (h : mkSportsWalking data = .ok t) : className t = "SportsWalking" := by
  unfold mkSportsWalking at h
  split at h
  · simp only [Except.ok.injEq] at h; subst h; rfl
  · simp at h

/-- Claim C10: the training_type string a dispatched record places in its
Summary is the variant's class name — "Swimming" under tag "SWM", "Running"
under "RUN", "SportsWalking" under "WLK" — not the three-letter tag. -/
theorem summary_training_type (tag : String) (data : List ℚ) (t : Training)
    (msg : InfoMessage) (hrt : read_package tag data = .ok t)
    (hmsg : show_training_info t = .ok msg) :
    msg.training_type = className t
    ∧ (tag = "SWM" → msg.training_type = "Swimming")
    ∧ (tag = "RUN" → msg.training_type = "Running")
    ∧ (tag = "WLK" → msg.training_type = "SportsWalking") := by
  have hname := show_training_info_type hmsg
  refine ⟨hname, ?_, ?_, ?_⟩
  · rintro rfl
    exact hname.trans (mkSwimming_ok hrt)
  · rintro rfl
    exact hname.trans (mkRunning_ok hrt)
  · rintro rfl
    exact hname.trans (mkSportsWalking_ok hrt)

/-- Witness for C10 at the script's swimming package. -/
theorem summary_training_type_witness :
    (InfoMessage.mk "Swimming" 1 0.9936 1 336).training_type = "Swimming" :=
  (summary_training_type "SWM" [720, 1, 80, 25, 40] (.swimming 720 1 80 25 40)
      ⟨"Swimming", 1, 0.9936, 1, 336⟩ rfl
      (by norm_num [show_training_info, get_distance, get_mean_speed,
        get_spent_calories, divE, M_IN_KM, LEN_STEP, coeff_swim_1, coeff_swim_2,
        Training.action, Training.duration, Training.weight, className])).2.1 rfl

end Homework
